import Mathlib

/-!
Verification development for the pi400 video-download bot.

The Python sources (`src/bot.py`, `src/handlers/download_handler.py`) are
shallowly embedded below.  Conventions used throughout:

* Python strings are Lean `String`s; helpers that Python takes from the
  standard library (`str.lower`, substring tests via `in`, `os.path`
  functions) are re-implemented over `List Char` so that everything reduces
  in the kernel.  `str.lower` is modelled as ASCII lowering, which agrees
  with Python on all keyword sets involved.
* Python float arithmetic in the two size estimators uses only the constants
  1.5, 2.0, 2.5, 3.0, 0.8, 0.4, 1.05, 1.1 together with multiplication and
  division by powers of two and by 60; these computations are modelled as
  exact rational arithmetic, expressed over integers after clearing
  denominators.  `int(x)` on the (non-negative) results is floor division.
* Fallible code returns `Except`/`Option`; handlers that only perform chat
  I/O are modelled by the decision they take, as a small inductive outcome
  type.  `await`/retry delays are irrelevant to the claims and are dropped.
* Durations reported by the extraction collaborator are non-negative
  integers; where the source writes `duration or 0` the model uses
  `Option.getD 0`.
-/

/-- `leadingSegEq needle hay` is true when `needle` is an initial segment of
`hay` (helper for the substring test that models Python's `in`). -/
def leadingSegEq : List Char → List Char → Bool
  | [], _ => true
  | _ :: _, [] => false
  | n :: ns, h :: hs => n == h && leadingSegEq ns hs

/-- `containsSeg hay needle` is true when `needle` occurs as a contiguous
segment of `hay`; models Python's `needle in hay` on strings. -/
def containsSeg : List Char → List Char → Bool
  | [], needle => needle.isEmpty
  | h :: hs, needle => leadingSegEq needle (h :: hs) || containsSeg hs needle

/-- Substring test on `String`, models Python's `in` operator. -/
def strContainsSub (hay needle : String) : Bool :=
  containsSeg hay.toList needle.toList

/-- ASCII lowering of a string, models Python's `str.lower()` (the keyword
sets matched against are pure ASCII). -/
def strLower (s : String) : String :=
  String.mk (s.toList.map Char.toLower)

/-- `strStartsWith s p` is true when `p` is an initial segment of `s`;
models Python's `str.startswith`. -/
def strStartsWith (s p : String) : Bool :=
  leadingSegEq p.toList s.toList

/-- Keywords classified as retryable by `is_retryable_error`
(`download_handler.py` lines 56-70). -/
def retryable_keywords : List String :=
  ["closing transport", "connection reset", "connection refused", "timeout",
   "timed out", "temporary failure", "network unreachable",
   "no address associated", "broken pipe", "cannot write", "read timeout",
   "write timeout", "connection aborted"]

/-- Keywords classified as non-retryable by `is_retryable_error`
(`download_handler.py` lines 77-85). -/
def non_retryable_keywords : List String :=
  ["unauthorized", "forbidden", "not found", "permission denied",
   "invalid token", "bad request", "invalid file"]

/-- Embedding of `is_retryable_error` (`download_handler.py` lines 47-92).
The Python function receives an exception; the model receives `str(error)`,
lowers it and matches the two keyword lists in source order: retryable
keywords first, then non-retryable ones, defaulting to retryable. -/
def is_retryable_error (error_msg : String) : Bool :=
  let s := strLower error_msg
  if retryable_keywords.any (fun k => strContainsSub s k) then true
  else if non_retryable_keywords.any (fun k => strContainsSub s k) then false
  else true

/-- One invocation of the fallible operation passed to `retry_with_backoff`:
either a success value or a raised exception carrying its message. -/
inductive CallResult (α : Type) where
  | ok (v : α)
  | err (msg : String)
deriving Repr, DecidableEq

/-- Loop body of `retry_with_backoff` (`download_handler.py` lines 120-138).
`f i` is the outcome of the `i`-th invocation (0-based), `remaining` the
number of attempts still allowed.  Returns the final outcome together with
the total number of invocations performed.  The `remaining = 0` case models
the unreachable fall-through after the loop (line 141).  Backoff sleeps are
timing-only and are not modelled. -/
def retryAux {α : Type} (f : Nat → CallResult α) : Nat → Nat → Except String α × Nat
  | i, 0 => (Except.error "unreachable", i)
  | i, remaining + 1 =>
    match f i with
    | CallResult.ok v => (Except.ok v, i + 1)
    | CallResult.err m =>
      if is_retryable_error m then
        if remaining == 0 then (Except.error m, i + 1)
        else retryAux f (i + 1) remaining
      else (Except.error m, i + 1)

/-- Embedding of `retry_with_backoff` (`download_handler.py` lines 95-141):
runs `f` for at most `max_attempts` attempts, re-raising immediately on a
non-retryable error and after the last attempt otherwise.  The default
attempt count in the source is 3. -/
def retry_with_backoff {α : Type} (f : Nat → CallResult α) (max_attempts : Nat) :
    Except String α × Nat :=
  retryAux f 0 max_attempts

/-- Empirical MB-per-minute per resolution (`EST_SIZE_PER_MINUTE`,
`download_handler.py` lines 40-44), scaled by 10 to clear the decimal:
1.5, 0.8 and 0.4 MB/min. -/
def est_size_per_minute_tenths (q : String) : Int :=
  if q == "720p" then 15
  else if q == "480p" then 8
  else if q == "360p" then 4
  else 0

/-- Resolution keys in the order the source iterates them
(`EST_SIZE_PER_MINUTE` insertion order, identical to the explicit list
`['720p', '480p', '360p']` at line 185). -/
def quality_order : List String := ["720p", "480p", "360p"]

/-- Embedding of `estimate_encoding_sizes` (`download_handler.py` lines
144-165): for each quality, `duration/60 * size_per_min * 1.1` MB.  Sizes
are held in units of 1/6000 MB so that the rational value
`d/60 * (tenths/10) * 11/10` becomes the exact integer `d * tenths * 11`.
Returns `[]` when the duration is not positive, as the source does. -/
def estimate_encoding_sizes (duration_seconds : Int) : List (String × Int) :=
  if duration_seconds ≤ 0 then []
  else quality_order.map (fun q => (q, duration_seconds * est_size_per_minute_tenths q * 11))

/-- `estimates.get(quality, 0)` on the association list produced by
`estimate_encoding_sizes` (`download_handler.py` line 186). -/
def estimates_get (ests : List (String × Int)) (q : String) : Int :=
  match ests.find? (fun p => p.1 == q) with
  | some p => p.2
  | none => 0

/-- The 50 MB keyboard threshold (`MAX_SIZE_MB`, line 180) in the same
1/6000 MB units as `estimate_encoding_sizes`. -/
def MAX_SIZE_SCALED : Int := 50 * 6000

/-- Embedding of the filter inside `show_encoding_choices_keyboard`
(`download_handler.py` lines 182-189): the resolutions whose estimate does
not exceed 50 MB, in source order. -/
def available_options (duration_seconds : Int) : List String :=
  quality_order.filter
    (fun q => estimates_get (estimate_encoding_sizes duration_seconds) q ≤ MAX_SIZE_SCALED)

/-- The callback data of the buttons on the keyboard built by
`show_encoding_choices_keyboard` (`download_handler.py` lines 192-211):
one `encode_quality:<q>` button per surviving resolution, then the
always-present skip button. -/
def keyboard_callbacks (duration_seconds : Int) : List String :=
  (available_options duration_seconds).map (fun q => "encode_quality:" ++ q)
    ++ ["encode_skip"]

/-- Assumed bitrate per HandBrake preset (`bitrate_map` inside
`estimate_encoded_size`, `download_handler.py` lines 401-409), scaled by 10:
1.5, 2.0, 3.0 and 2.5 Mbps, default 2.0 for unknown presets. -/
def bitrate_map_tenths (preset : String) : Nat :=
  if preset == "Very Fast 720p30" then 15
  else if preset == "Fast 720p30" then 20
  else if preset == "Fast 1080p30" then 30
  else if preset == "HQ 720p30 Surround" then 25
  else 20

/-- Embedding of `estimate_encoded_size` (`download_handler.py` lines
392-413): `int(duration * mbps * 1024 * 1024 / 8 * 1.05)` bytes.  With the
bitrate held in tenths of Mbps and 1.05 = 105/100 the exact value is
`duration * tenths * 1024 * 1024 * 105 / 8000`, floored — `int()` truncates
toward zero, which is floor on these non-negative values. -/
def estimate_encoded_size (duration_seconds : Nat) (preset : String) : Nat :=
  duration_seconds * bitrate_map_tenths preset * 1024 * 1024 * 105 / 8000

/-- Characters Python's `\w` matches, restricted to ASCII as in the rest of
the model: alphanumerics and underscore. -/
def isWordChar (c : Char) : Bool := c.isAlphanum || c == '_'

/-- The character class kept by the `re.sub(r'[^\w\s\-\.]', '', ...)` step of
`sanitize_filename`: word characters, whitespace, dashes and dots. -/
def keepChar (c : Char) : Bool :=
  isWordChar c || c.isWhitespace || c == '-' || c == '.'

/-- The explicit replacement chain of `sanitize_filename`
(`download_handler.py` lines 425-433): `: / \ |` become dashes,
`? " < > *` are dropped, everything else passes through. -/
def replChar (c : Char) : Option Char :=
  if c == ':' || c == '/' || c == '\\' || c == '|' then some '-'
  else if c == '?' || c == '"' || c == '<' || c == '>' || c == '*' then none
  else some c

/-- Characters removed from both ends by `strip('. ')` (line 439). -/
def isStripChar (c : Char) : Bool := c == '.' || c == ' '

/-- Embedding of `sanitize_filename` (`download_handler.py` lines 416-449):
replacement chain, character-class filter, strip of leading/trailing dots
and spaces, truncation to 200 characters, and the `'video'` fallback when
the result is empty or all whitespace. -/
def sanitize_filename (filename : String) : String :=
  let cs := filename.toList.filterMap replChar
  let cs := cs.filter keepChar
  let cs := cs.dropWhile isStripChar
  let cs := (cs.reverse.dropWhile isStripChar).reverse
  let cs := cs.take 200
  if cs.isEmpty || cs.all (fun c => c.isWhitespace) then "video"
  else String.mk cs

/-- The scheme and network-location components of a parsed URL; the only
parts of Python's `urlparse` result the bot inspects. -/
structure UrlParts where
  scheme : String
  netloc : String
deriving Repr, DecidableEq

/-- Characters allowed in a URL scheme after the first (letters, digits,
`+`, `-`, `.`), as in `urllib.parse.scheme_chars`. -/
def isSchemeChar (c : Char) : Bool :=
  c.isAlphanum || c == '+' || c == '-' || c == '.'

/-- Splits a character list at its first `:`, returning the parts before and
after it, or `none` when there is no colon (helper for scheme parsing). -/
def splitAtColon : List Char → Option (List Char × List Char)
  | [] => none
  | c :: rest =>
    if c == ':' then some ([], rest)
    else match splitAtColon rest with
      | some (pre, post) => some (c :: pre, post)
      | none => none

/-- The netloc is everything after `//` up to the first `/`, `?` or `#`,
as in `urllib.parse._splitnetloc`. -/
def takeNetloc : List Char → List Char
  | [] => []
  | c :: rest =>
    if c == '/' || c == '?' || c == '#' then [] else c :: takeNetloc rest

/-- Embedding of the slice of `urllib.parse.urlparse` that `validate_url`
inspects: scheme extraction (candidate before the first `:`, accepted when
non-empty, starting with a letter and made of scheme characters, then
lowercased), netloc extraction after `//`, and the `ValueError` raised on a
netloc with an unmatched square bracket, modelled as `none`. -/
def urlparse (url : String) : Option UrlParts :=
  let cs := url.toList
  let (schemeChars, rest) :=
    match splitAtColon cs with
    | some (pre, post) =>
      if !pre.isEmpty && (pre.headD ' ').isAlpha && pre.all isSchemeChar
      then (pre.map Char.toLower, post)
      else ([], cs)
    | none => ([], cs)
  let netlocChars :=
    match rest with
    | '/' :: '/' :: tail => takeNetloc tail
    | _ => []
  if (netlocChars.contains '[' && !netlocChars.contains ']')
      || (netlocChars.contains ']' && !netlocChars.contains '[') then none
  else some ⟨String.mk schemeChars, String.mk netlocChars⟩

/-- Embedding of `validate_url` (`download_handler.py` lines 302-334):
rejects empty input, input longer than 2048 characters, parse failures,
schemes other than http/https, and empty or over-long netlocs.  The source
repeats the scheme test twice (lines 319 and 327); the model keeps both. -/
def validate_url (url : String) : Bool :=
  if url.isEmpty then false
  else if url.length > 2048 then false
  else match urlparse url with
    | none => false
    | some p =>
      if !(p.scheme == "http" || p.scheme == "https") then false
      else if p.netloc.isEmpty || p.netloc.length > 255 then false
      else if !(p.scheme == "http" || p.scheme == "https") then false
      else true

/-- The aiogram state string for `DownloadStates.waiting_for_url`. -/
def waiting_for_url_state : String := "DownloadStates:waiting_for_url"

/-- The aiogram state string for `DownloadStates.waiting_for_confirmation`. -/
def waiting_for_confirmation_state : String := "DownloadStates:waiting_for_confirmation"

/-- The decision taken by `url_message_handler`; each constructor names the
response sent (or, for `processDownload`, the orchestrator call made). -/
inductive UrlMsgAction where
  | unauthorized
  | invalidInput
  | tooLong
  | wrongState
  | processDownload
  | ignored
deriving Repr, DecidableEq

/-- Embedding of `url_message_handler` (`bot.py` lines 177-215): whitelist
check, input presence, the 2048-character length cap, whitespace strip,
FSM-state filtering, and the dispatch into `process_download` when the
state is `waiting_for_url` or the text starts with http(s)://.  A message
matching none of the branches is silently ignored. -/
def url_message_handler (authorized : Bool) (current_state : Option String)
    (text : Option String) : UrlMsgAction :=
  if !authorized then UrlMsgAction.unauthorized
  else match text with
    | none => UrlMsgAction.invalidInput
    | some url =>
      if url.isEmpty then UrlMsgAction.invalidInput
      else if url.length > 2048 then UrlMsgAction.tooLong
      else
        let url := url.trim
        if current_state.isSome && current_state != some waiting_for_url_state then
          UrlMsgAction.wrongState
        else if current_state == some waiting_for_url_state
            || strStartsWith url "http://" || strStartsWith url "https://" then
          UrlMsgAction.processDownload
        else UrlMsgAction.ignored

/-- The decision taken by `confirmation_handler`; constructors name the
response sent, `startDownload url` being the call into
`execute_confirmed_download` with the pending URL. -/
inductive ConfirmAction where
  | unauthorized
  | invalidState
  | invalidData
  | dbError
  | noPending
  | pendingTooLong
  | startDownload (url : String)
  | cancelled
  | badChoice
deriving Repr, DecidableEq

/-- Embedding of `confirmation_handler` (`bot.py` lines 229-325): whitelist
check, then the FSM-state guard (anything other than
`waiting_for_confirmation` is answered with "Invalid state. Please start
over."), then callback-data validation, the pending-URL lookup from the
database (`Except.error` models a raised database exception), its
validation, and finally the yes/no/other dispatch. -/
def confirmation_handler (authorized : Bool) (current_state : Option String)
    (callback_data : Option String)
    (pending_lookup : Except Unit (Option String)) : ConfirmAction :=
  if !authorized then ConfirmAction.unauthorized
  else if current_state != some waiting_for_confirmation_state then
    ConfirmAction.invalidState
  else match callback_data with
    | none => ConfirmAction.invalidData
    | some dat =>
      if dat.isEmpty then ConfirmAction.invalidData
      else match pending_lookup with
        | Except.error _ => ConfirmAction.dbError
        | Except.ok none => ConfirmAction.noPending
        | Except.ok (some url) =>
          if url.isEmpty then ConfirmAction.noPending
          else if url.length > 2048 then ConfirmAction.pendingTooLong
          else if dat == "confirm_yes" then ConfirmAction.startDownload url
          else if dat == "confirm_no" then ConfirmAction.cancelled
          else ConfirmAction.badChoice

/-- The routing decision taken by `process_download`; `confirmationShown`
is the outcome the earlier revisions produced and is kept in the type so
that its absence from the final revision can be stated. -/
inductive PDOutcome where
  | invalidUrl
  | rejectedTooLarge
  | confirmationShown
  | downloadStarted
deriving Repr, DecidableEq

/-- Embedding of the routing logic of `process_download`
(`download_handler.py` lines 651-769): URL validation, then the probe
result `(file_size, duration)` drives the decision — undeterminable size
proceeds on faith (line 725), a size over the limit is re-judged by
`estimate_encoded_size` on the probed duration (`duration or 0`) and either
proceeds directly (line 746) or is rejected (lines 747-766), and a size
within the limit proceeds directly (line 769).  Chat-transport calls are
decision-free and are not modelled. -/
def process_download (url : String) (file_size : Option Nat)
    (duration : Option Nat) (preset : String) (max_file_size : Nat) : PDOutcome :=
  if url.isEmpty then PDOutcome.invalidUrl
  else if !validate_url url then PDOutcome.invalidUrl
  else match file_size with
    | none => PDOutcome.downloadStarted
    | some fs =>
      if fs > max_file_size then
        if estimate_encoded_size (duration.getD 0) preset ≤ max_file_size then
          PDOutcome.downloadStarted
        else PDOutcome.rejectedTooLarge
      else PDOutcome.downloadStarted

/-- Characters after the last `/` of a path; models `os.path.basename` for
POSIX paths. -/
def basenameL (p : List Char) : List Char :=
  (p.reverse.takeWhile (fun c => c != '/')).reverse

/-- Everything before the basename with trailing slashes stripped unless the
head is all slashes; models `os.path.dirname` for POSIX paths. -/
def dirnameL (p : List Char) : List Char :=
  let h := p.take (p.length - (basenameL p).length)
  if h.isEmpty then []
  else if h.all (fun c => c == '/') then h
  else (h.reverse.dropWhile (fun c => c == '/')).reverse

/-- `os.path.basename` on `String`. -/
def basename (p : String) : String := String.mk (basenameL p.toList)

/-- `os.path.dirname` on `String`. -/
def dirname (p : String) : String := String.mk (dirnameL p.toList)

/-- Models `os.path.splitext` applied to a basename (the only way the source
uses it): splits at the last dot provided some earlier character of the
name is not a dot, so purely-leading dots never start an extension. -/
def splitextL (b : List Char) : List Char × List Char :=
  match b.reverse.findIdx? (fun c => c == '.') with
  | none => (b, [])
  | some j =>
    let i := b.length - 1 - j
    if (b.take i).any (fun c => c != '.') then (b.take i, b.drop i)
    else (b, [])

/-- `os.path.splitext` on `String` basenames. -/
def splitext (b : String) : String × String :=
  let r := splitextL b.toList
  (String.mk r.1, String.mk r.2)

/-- Models `os.path.join` for the two-argument POSIX case. -/
def joinPath (a b : String) : String :=
  if strStartsWith b "/" then b
  else if a.isEmpty || strStartsWith (String.mk a.toList.reverse) "/" then a ++ b
  else a ++ "/" ++ b

/-- Embedding of the filename post-processing of `download_video`
(`download_handler.py` lines 542-568): split the path yt-dlp returned,
repair a missing or `.NA` extension, sanitize the stem, rebuild the path,
and accept it only when its `realpath` starts with the `realpath` of the
session's temp directory, raising `ValueError("Invalid file path")`
otherwise.  The filesystem's `os.path.realpath` is abstracted as the
function argument `realpath` (the identity when no symlinks are involved
and all paths are canonical). -/
def download_video_filename (realpath : String → String)
    (temp_dir filename : String) : Except String String :=
  let dir_path := dirname filename
  let base := basename filename
  let stem := (splitext base).1
  let ext0 := (splitext base).2
  let ext := if ext0 == "" || ext0 == ".NA" then ".mp4" else ext0
  let sanitized_name := sanitize_filename stem ++ ext
  let sanitized_path := joinPath dir_path sanitized_name
  if strStartsWith (realpath sanitized_path) (realpath temp_dir) then
    Except.ok sanitized_path
  else Except.error "Invalid file path"

/-- Modelled from the spec: a path "stays within the session's working
directory" when it is that directory or lies below it, i.e. the directory
followed by a path separator leads the path.  The source has no such
definition — its check is a bare string-prefix test — so this containment
predicate is written from the spec's words for comparison. -/
def path_within_dir (base p : String) : Bool :=
  p == base || strStartsWith p (base ++ "/")

/-- Any non-empty string among the first 200 characters of a list whose
members all satisfy `keepChar`; helper tracing the character provenance
through the sanitizer pipeline. -/
theorem sanitize_chain_mem {c : Char} (l : List Char)
    (hc : c ∈ ((((l.filter keepChar).dropWhile isStripChar).reverse.dropWhile
      isStripChar).reverse.take 200)) : keepChar c = true := by
  have h1 := List.take_subset 200 _ hc
  rw [List.mem_reverse] at h1
  have h2 := (List.dropWhile_sublist isStripChar).subset h1
  rw [List.mem_reverse] at h2
  have h3 := (List.dropWhile_sublist isStripChar).subset h2
  exact (List.mem_filter.mp h3).2

/-- C9: for every fixed preset, `estimate_encoded_size` is non-decreasing in
the duration. -/
theorem estimate_encoded_size_mono : ∀ (preset : String) (d1 d2 : Nat),
    d1 ≤ d2 → estimate_encoded_size d1 preset ≤ estimate_encoded_size d2 preset := by
  intro preset d1 d2 h
  unfold estimate_encoded_size
  gcongr

/-- Witness for C9 at duration 10 ≤ 20 with the Fast 720p30 preset. -/
theorem estimate_encoded_size_mono_witness :
    estimate_encoded_size 10 "Fast 720p30" ≤ estimate_encoded_size 20 "Fast 720p30" :=
  estimate_encoded_size_mono "Fast 720p30" 10 20 (by decide)

/-- A validated URL is non-empty (first guard of `validate_url`). -/
theorem validate_url_isEmpty_false (url : String) (hv : validate_url url = true) :
    url.isEmpty = false := by
  by_contra hc
  rw [Bool.not_eq_false] at hc
  rw [validate_url, if_pos hc] at hv
  exact Bool.false_ne_true hv

/-- C5: for a 600-second video on the Very Fast 720p30 preset the predicted
encoded size is `int(600 * 1.5 * 1024 * 1024 / 8 * 1.05) = 123863040` bytes
(≈ 118 MB), and with a 50 MB (52428800-byte) limit and any over-limit
source size `process_download` takes the too-large rejection branch, not a
confirmation dialog. -/
theorem estimate_600s_rejected :
    estimate_encoded_size 600 "Very Fast 720p30" = 123863040 ∧
    ∀ (url : String) (fs : Nat), validate_url url = true → 52428800 < fs →
      process_download url (some fs) (some 600) "Very Fast 720p30" 52428800 =
        PDOutcome.rejectedTooLarge := by
  refine ⟨by decide, ?_⟩
  intro url fs hv hfs
  have hne : url.isEmpty = false := validate_url_isEmpty_false url hv
  have hest : ¬ (estimate_encoded_size 600 "Very Fast 720p30" ≤ 52428800) := by decide
  simp [process_download, hne, hv, hfs, hest, Option.getD]

/-- Witness for C5 with a 60 MB source behind a valid YouTube URL. -/
theorem estimate_600s_rejected_witness :
    process_download "https://youtube.com/watch" (some 62914560) (some 600)
      "Very Fast 720p30" 52428800 = PDOutcome.rejectedTooLarge :=
  estimate_600s_rejected.2 "https://youtube.com/watch" 62914560 (by decide) (by decide)

/-- Step lemma for `retryAux`: a successful invocation returns immediately. -/
theorem retryAux_ok {α : Type} (f : Nat → CallResult α) (i r : Nat) (v : α)
    (h : f i = CallResult.ok v) : retryAux f i (r + 1) = (Except.ok v, i + 1) := by
  rw [retryAux, h]

/-- Step lemma for `retryAux`: a retryable failure before the last attempt
recurses into the next attempt. -/
theorem retryAux_err_retry {α : Type} (f : Nat → CallResult α) (i r : Nat)
    (m : String) (h : f i = CallResult.err m) (hr : is_retryable_error m = true)
    (hrem : r ≠ 0) : retryAux f i (r + 1) = retryAux f (i + 1) r := by
  rw [retryAux, h]
  simp [hr, hrem]

/-- Step lemma for `retryAux`: a non-retryable failure re-raises at once. -/
theorem retryAux_err_term {α : Type} (f : Nat → CallResult α) (i r : Nat)
    (m : String) (h : f i = CallResult.err m) (hr : is_retryable_error m = false) :
    retryAux f i (r + 1) = (Except.error m, i + 1) := by
  rw [retryAux, h]
  simp [hr]

/-- C2: a function that raises a retryable error on its first two calls and
succeeds on the third makes `retry_with_backoff` (default 3 attempts)
return the success value after exactly 3 invocations; a function raising a
terminal-classified error makes it re-raise after exactly 1 invocation. -/
theorem retry_with_backoff_spec :
    (∀ (α : Type) (f : Nat → CallResult α) (m1 m2 : String) (v : α),
      f 0 = CallResult.err m1 → f 1 = CallResult.err m2 → f 2 = CallResult.ok v →
      is_retryable_error m1 = true → is_retryable_error m2 = true →
      retry_with_backoff f 3 = (Except.ok v, 3)) ∧
    (∀ (α : Type) (f : Nat → CallResult α) (m : String),
      f 0 = CallResult.err m → is_retryable_error m = false →
      retry_with_backoff f 3 = (Except.error m, 1)) := by
  constructor
  · intro α f m1 m2 v h0 h1 h2 r1 r2
    show retryAux f 0 3 = (Except.ok v, 3)
    calc retryAux f 0 3 = retryAux f 1 2 := retryAux_err_retry f 0 2 m1 h0 r1 (by decide)
      _ = retryAux f 2 1 := retryAux_err_retry f 1 1 m2 h1 r2 (by decide)
      _ = (Except.ok v, 3) := retryAux_ok f 2 0 v h2
  · intro α f m h0 hterm
    exact retryAux_err_term f 0 2 m h0 hterm

/-- Witness for C2: two timeouts then success returns the value in 3 calls;
a not-found error raises at once. -/
theorem retry_with_backoff_spec_witness :
    retry_with_backoff (fun i => if i < 2 then CallResult.err "timeout"
      else CallResult.ok 42) 3 = (Except.ok 42, 3) ∧
    retry_with_backoff (fun _ => (CallResult.err "file not found" : CallResult Nat)) 3 =
      (Except.error "file not found", (1 : Nat)) :=
  ⟨retry_with_backoff_spec.1 Nat _ "timeout" "timeout" 42 rfl rfl rfl
      (by decide) (by decide),
    retry_with_backoff_spec.2 Nat _ "file not found" rfl (by decide)⟩

/-- C8 counterexample: the message "Upload timeout: file not found" contains
the terminal keyword "not found", yet `is_retryable_error` classifies it as
retryable, because the retryable keyword "timeout" is matched first — the
claim's unconditional "terminal when it contains a terminal keyword" clause
fails on it. -/
theorem is_retryable_both_keywords :
    non_retryable_keywords.any
      (fun k => strContainsSub (strLower "Upload timeout: file not found") k) = true ∧
    is_retryable_error "Upload timeout: file not found" = true := by
  constructor
  · decide
  · decide

/-- C8 (amended): `is_retryable_error` is retryable when the lowered message
contains a retryable keyword; terminal when it contains a terminal keyword
and no retryable one; and retryable by default when neither set matches. -/
theorem is_retryable_classification : ∀ m : String,
    (retryable_keywords.any (fun k => strContainsSub (strLower m) k) = true →
      is_retryable_error m = true) ∧
    (retryable_keywords.any (fun k => strContainsSub (strLower m) k) = false →
      non_retryable_keywords.any (fun k => strContainsSub (strLower m) k) = true →
      is_retryable_error m = false) ∧
    (retryable_keywords.any (fun k => strContainsSub (strLower m) k) = false →
      non_retryable_keywords.any (fun k => strContainsSub (strLower m) k) = false →
      is_retryable_error m = true) := by
  intro m
  refine ⟨fun h => ?_, fun h1 h2 => ?_, fun h1 h2 => ?_⟩ <;>
    simp [is_retryable_error, *]

/-- Witness for C8 on one message of each kind. -/
theorem is_retryable_classification_witness :
    is_retryable_error "Connection reset by peer" = true ∧
    is_retryable_error "HTTP 404 Not Found" = false ∧
    is_retryable_error "mysterious failure" = true :=
  ⟨(is_retryable_classification "Connection reset by peer").1 (by decide),
    (is_retryable_classification "HTTP 404 Not Found").2.1 (by decide) (by decide),
    (is_retryable_classification "mysterious failure").2.2 (by decide) (by decide)⟩

/-- C10: `sanitize_filename` always returns a non-empty string of at most
200 characters made of word characters, whitespace, dashes and dots. -/
theorem sanitize_filename_spec : ∀ s : String,
    0 < (sanitize_filename s).length ∧ (sanitize_filename s).length ≤ 200 ∧
    ∀ c ∈ (sanitize_filename s).toList,
      (isWordChar c || c.isWhitespace || c == '-' || c == '.') = true := by
  intro s
  simp only [sanitize_filename]
  split
  · exact ⟨by decide, by decide, by decide⟩
  · rename_i hcond
    rw [Bool.or_eq_true, not_or] at hcond
    obtain ⟨hne, -⟩ := hcond
    refine ⟨?_, ?_, ?_⟩
    · show 0 < (List.take 200 _).length
      rw [Bool.not_eq_true, List.isEmpty_eq_false] at hne
      exact List.length_pos.mpr hne
    · show (List.take 200 _).length ≤ 200
      rw [List.length_take]
      exact min_le_left _ _
    · intro c hc
      exact sanitize_chain_mem _ hc

/-- C3: `validate_url` rejects input over 2048 characters, parse failures
and any scheme other than http/https, and a 2049-character message is
answered with the too-long input error by `url_message_handler` (before
`process_download`, and with it any network call, is reached). -/
theorem validate_url_rejects : ∀ u : String,
    (2048 < u.length → validate_url u = false) ∧
    (urlparse u = none → validate_url u = false) ∧
    (∀ p : UrlParts, urlparse u = some p → p.scheme ≠ "http" → p.scheme ≠ "https" →
      validate_url u = false) ∧
    (∀ (st : Option String) (t : String), t.length = 2049 →
      url_message_handler true st (some t) = UrlMsgAction.tooLong) := by
  intro u
  refine ⟨fun h => ?_, fun h => ?_, fun p hp h1 h2 => ?_, fun st t ht => ?_⟩
  · by_cases he : u.isEmpty = true <;> simp [validate_url, he, h]
  · by_cases he : u.isEmpty = true <;> by_cases hl : 2048 < u.length <;>
      simp [validate_url, he, hl, h]
  · by_cases he : u.isEmpty = true <;> by_cases hl : 2048 < u.length <;>
      simp [validate_url, he, hl, hp, h1, h2]
  · have hne : t.isEmpty = false := by
      rw [Bool.eq_false_iff]
      intro hc
      rw [String.isEmpty_iff t] at hc
      subst hc
      simp at ht
    unfold url_message_handler
    simp [hne, ht]

/-- Witness for C3: a 2049-character URL, a bracket parse failure, and an
ftp scheme are all rejected, and the long URL draws the too-long error. -/
theorem validate_url_rejects_witness :
    validate_url (String.mk (List.replicate 2049 'a')) = false ∧
    validate_url "http://[abc" = false ∧
    validate_url "ftp://example.com/a" = false ∧
    url_message_handler true none (some (String.mk (List.replicate 2049 'a'))) =
      UrlMsgAction.tooLong := by
  have hlen : (String.mk (List.replicate 2049 'a')).length = 2049 := by
    rw [show (String.mk (List.replicate 2049 'a')).length =
      (List.replicate 2049 'a').length from rfl, List.length_replicate]
  refine ⟨(validate_url_rejects (String.mk (List.replicate 2049 'a'))).1
      (by rw [hlen]; decide),
    (validate_url_rejects "http://[abc").2.1 (by decide),
    (validate_url_rejects "ftp://example.com/a").2.2.1 ⟨"ftp", "example.com"⟩
      (by decide) (by decide) (by decide),
    (validate_url_rejects "").2.2.2 none (String.mk (List.replicate 2049 'a')) hlen⟩

/-- C7: a confirmation callback arriving in any state other than
`waiting_for_confirmation` is answered with the invalid-state
"please start over" response, and no download is started in that situation
whoever the sender is. -/
theorem confirmation_wrong_state_rejected :
    ∀ (st : Option String) (dat : Option String) (pend : Except Unit (Option String)),
      st ≠ some waiting_for_confirmation_state →
      confirmation_handler true st dat pend = ConfirmAction.invalidState ∧
      ∀ (auth : Bool) (u : String),
        confirmation_handler auth st dat pend ≠ ConfirmAction.startDownload u := by
  intro st dat pend hst
  have hmain : confirmation_handler true st dat pend = ConfirmAction.invalidState := by
    unfold confirmation_handler
    simp [hst]
  refine ⟨hmain, ?_⟩
  intro auth u
  cases auth
  · unfold confirmation_handler
    simp
  · rw [hmain]
    simp

/-- Witness for C7: a yes-confirmation in the idle state (no FSM state set)
with a pending URL on file is still rejected with the invalid-state
response. -/
theorem confirmation_wrong_state_rejected_witness :
    confirmation_handler true none (some "confirm_yes")
      (Except.ok (some "https://e.com")) = ConfirmAction.invalidState :=
  (confirmation_wrong_state_rejected none (some "confirm_yes")
    (Except.ok (some "https://e.com")) (by simp)).1

/-- C6: for every positive duration the keyboard offers exactly the
resolutions whose estimate — duration/60 minutes times the MB-per-minute
figure times the 1.1 safety factor — does not exceed 50 MB, in source
order, and always a skip button.  In the scaled units of
`estimate_encoding_sizes` (1/6000 MB) that bound reads
`d * tenths * 11 ≤ 50 * 6000`. -/
theorem keyboard_options_exact : ∀ d : Int, 0 < d →
    keyboard_callbacks d =
      (quality_order.filter
        (fun q => decide (d * est_size_per_minute_tenths q * 11 ≤ MAX_SIZE_SCALED))).map
        (fun q => "encode_quality:" ++ q) ++ ["encode_skip"] := by
  intro d hd
  have hnp : ¬ (d ≤ 0) := not_le.mpr hd
  unfold keyboard_callbacks available_options
  congr 2
  apply List.filter_congr
  intro q hq
  have hval : estimates_get (estimate_encoding_sizes d) q =
      d * est_size_per_minute_tenths q * 11 := by
    fin_cases hq <;>
      simp [estimates_get, estimate_encoding_sizes, hnp, quality_order,
        List.find?, est_size_per_minute_tenths]
  rw [hval]

/-- Witness for C6 at a one-hour video: 720p (99 MB) and 480p (52.8 MB) are
filtered out, 360p (26.4 MB) and the skip button remain. -/
theorem keyboard_options_exact_witness :
    keyboard_callbacks 3600 = ["encode_quality:360p", "encode_skip"] := by
  rw [keyboard_options_exact 3600 (by decide)]
  decide

/-- C1 counterexample: a 60 MB source (over the 50 MB limit, so neither
"under the limit" nor "undeterminable") whose 60-second duration predicts a
12 MB encode is sent directly to download by `process_download` — no
confirmation dialog — contradicting the claim that a direct start happens
only for under-limit or undeterminable sizes. -/
theorem process_download_direct_over_limit :
    52428800 < 62914560 ∧
    validate_url "https://youtube.com/watch" = true ∧
    process_download "https://youtube.com/watch" (some 62914560) (some 60)
      "Very Fast 720p30" 52428800 = PDOutcome.downloadStarted :=
  ⟨by decide, by decide, by decide⟩

/-- C1 (amended): the final revision of `process_download` never shows a
confirmation dialog.  On a validated URL it rejects to idle exactly when
the probed size exceeds the limit and the predicted post-encode size
(duration times the preset's assumed bitrate, +5% overhead) also exceeds
it, and starts the download directly in every other case: size under the
limit, size undeterminable, or over-limit size with an under-limit
post-encode estimate. -/
theorem process_download_routing : ∀ (url : String) (fs : Option Nat)
    (dur : Option Nat) (preset : String) (maxB : Nat),
    process_download url fs dur preset maxB ≠ PDOutcome.confirmationShown ∧
    (validate_url url = true →
      ((process_download url fs dur preset maxB = PDOutcome.rejectedTooLarge ↔
        ∃ s, fs = some s ∧ maxB < s ∧
          maxB < estimate_encoded_size (dur.getD 0) preset) ∧
      (process_download url fs dur preset maxB = PDOutcome.downloadStarted ↔
        (fs = none ∨ ∃ s, fs = some s ∧
          (s ≤ maxB ∨ estimate_encoded_size (dur.getD 0) preset ≤ maxB))))) := by
  intro url fs dur preset maxB
  constructor
  · by_cases he : url.isEmpty <;> by_cases hv : validate_url url <;>
      rcases fs with _ | s <;>
      simp [process_download, he, hv] <;>
      by_cases h1 : s > maxB <;>
      by_cases h2 : estimate_encoded_size (dur.getD 0) preset ≤ maxB <;>
      simp [h1, h2]
  · intro hv
    have hne : url.isEmpty = false := validate_url_isEmpty_false url hv
    rcases fs with _ | s
    · simp [process_download, hne, hv]
    · by_cases h1 : maxB < s <;> by_cases h2 :
        estimate_encoded_size (dur.getD 0) preset ≤ maxB <;>
        simp [process_download, hne, hv, h1, h2] <;> omega

/-- Witness for C1: with a valid URL, a 60 MB probed size and a 45-minute
duration (531 MB predicted encode, over the limit) the rejection branch is
taken. -/
theorem process_download_routing_witness :
    process_download "https://youtube.com/watch" (some 62914560) (some 2700)
      "Very Fast 720p30" 52428800 = PDOutcome.rejectedTooLarge :=
  (((process_download_routing "https://youtube.com/watch" (some 62914560)
      (some 2700) "Very Fast 720p30" 52428800).2 (by decide)).1).mpr
    ⟨62914560, rfl, by decide, by decide⟩

/-- C4: evaluation at the failing input.  With the session working
directory `/t/a`, an extraction result `/t/ab/evil.mp4` — a path outside
the working directory, in a sibling directory whose name shares `/t/a` as a
string prefix — passes `download_video`'s `startswith` containment check
and is accepted, although it escapes the working directory; the claimed
"reject any path escaping the working directory" fails.  (`realpath` is the
identity here: all paths are canonical, no symlinks.) -/
theorem download_video_traversal_eval :
    download_video_filename (fun s => s) "/t/a" "/t/ab/evil.mp4" =
      Except.ok "/t/ab/evil.mp4" ∧
    path_within_dir "/t/a" "/t/ab/evil.mp4" = false :=
  ⟨rfl, by decide⟩

